import Mathlib

/-!
Shallow embedding of the crypto price tracker component
(`CryptoPriceTracker`): data model, the three source adapters
(`fetchKrakenPrices`, `fetchCoinbasePrices`, `fetchBinancePrices`), the
aggregator (`fetchAllPrices`) and the refresh loop's publication behaviour.

Numbers are modelled as rationals (the source's parsed floating point
values).  Network responses are modelled as explicit inputs: each adapter
takes either an adapter-level failure (transport error, malformed payload,
source-reported error — everything the adapter's outer `try/catch`
absorbs) or the successfully parsed payload.
-/

namespace CryptoTracker

/-- The fixed asset catalog (`type CryptoSymbol = 'BTC' | 'ETH' | 'SOL'`). -/
inductive CryptoSymbol where
  | BTC
  | ETH
  | SOL
  deriving DecidableEq, Repr

/-- The two supported currencies (`type Currency = 'USD' | 'EUR'`). -/
inductive Currency where
  | USD
  | EUR
  deriving DecidableEq, Repr

/-- The normalized quote record (`type CryptoPrice`).  The source always
supplies `priceChange24h` on every constructor path, so it is modelled as a
plain field. -/
structure CryptoPrice where
  symbol : CryptoSymbol
  price : ℚ
  platform : String
  priceChange24h : ℚ
  deriving DecidableEq, Repr

/-- Constant `YESTERDAY_PRICES_EUR`: the static reference price table in
EUR (the base currency). -/
def YESTERDAY_PRICES_EUR : CryptoSymbol → ℚ
  | .BTC => 70000
  | .ETH => 2700
  | .SOL => 186

/-- Constant `EUR_TO_USD = 1.08`, the fixed conversion rate. -/
def EUR_TO_USD : ℚ := 108 / 100

/-- Constant `YESTERDAY_PRICES_USD`: the EUR table converted entrywise by
the fixed rate (the source builds it with a `reduce` over
`Object.entries`). -/
def YESTERDAY_PRICES_USD (c : CryptoSymbol) : ℚ :=
  YESTERDAY_PRICES_EUR c * EUR_TO_USD

/-- The requested-asset list `cryptos = ['BTC', 'ETH', 'SOL']`. -/
def cryptos : List CryptoSymbol := [.BTC, .ETH, .SOL]

/-- The fixed source order `platforms = ['Kraken', 'Coinbase', 'Binance']`. -/
def platforms : List String := ["Kraken", "Coinbase", "Binance"]

/-- Ticker string of an asset as used in request symbols. -/
def symStr : CryptoSymbol → String
  | .BTC => "BTC"
  | .ETH => "ETH"
  | .SOL => "SOL"

/-- Currency string as used in request symbols. -/
def currencyStr : Currency → String
  | .USD => "USD"
  | .EUR => "EUR"

/-- Does `l` start with `pat`? (helper for the JS `String.includes`). -/
def listStartsWith [BEq α] : List α → List α → Bool
  | _, [] => true
  | [], _ :: _ => false
  | a :: as, b :: bs => a == b && listStartsWith as bs

/-- Does `pat` occur as a contiguous run inside `l`? -/
def listContains [BEq α] : List α → List α → Bool
  | [], pat => pat.isEmpty
  | a :: as, pat => listStartsWith (a :: as) pat || listContains as pat

/-- JS `s.includes(pat)` on strings. -/
def strContains (s pat : String) : Bool :=
  listContains s.toList pat.toList

/-! ## Kraken adapter -/

/-- Kraken's symbol aliasing: `crypto === 'BTC' ? 'XBT' : crypto`. -/
def krakenCrypto : CryptoSymbol → String
  | .BTC => "XBT"
  | c => symStr c

/-- The pair strings sent in the Kraken request URL. -/
def krakenPairs (currency : Currency) : List String :=
  cryptos.map (fun crypto => krakenCrypto crypto ++ currencyStr currency)

/-- One entry of Kraken's `data.result` map: `c[0]` (last close, parsed)
and `o` (opening price, parsed). -/
structure KrakenTicker where
  c0 : ℚ
  o : ℚ
  deriving DecidableEq, Repr

/-- The Kraken adapter's input: either an adapter-level failure (transport
error, malformed payload, or a non-empty `data.error`, all of which the
outer `catch` turns into `return []`) or the parsed `data.result` keyed map
in key-insertion order. -/
inductive KrakenResponse where
  | failure
  | success (result : List (String × KrakenTicker))
  deriving DecidableEq, Repr

/-- The quote built for one asset from a successful Kraken response: the
first result key containing the aliased ticker is used; a missing key
degrades to the fallback quote. -/
def krakenQuote (result : List (String × KrakenTicker)) (crypto : CryptoSymbol) :
    CryptoPrice :=
  match result.find? (fun kv => strContains kv.1 (krakenCrypto crypto)) with
  | some kv =>
      { symbol := crypto
        price := kv.2.c0
        platform := "Kraken"
        priceChange24h := (kv.2.c0 - kv.2.o) / kv.2.o * 100 }
  | none =>
      { symbol := crypto, price := 0, platform := "Kraken", priceChange24h := 0 }

/-- Adapter `fetchKrakenPrices`: one batched call; on failure the `catch`
returns the empty list, on success it maps `krakenQuote` over `cryptos`. -/
def fetchKrakenPrices (currency : Currency) (resp : KrakenResponse) :
    List CryptoPrice :=
  match resp with
  | .failure => []
  | .success result =>
      let _pairs := krakenPairs currency
      cryptos.map (krakenQuote result)

/-! ## Coinbase adapter -/

/-- The input of one per-asset Coinbase request: either a per-asset failure
(transport error, `data.errors` set, malformed payload — absorbed by the
inner `catch`) or the parsed `data.data.amount`. -/
inductive CoinbaseResponse where
  | failure
  | success (amount : ℚ)
  deriving DecidableEq, Repr

/-- The currency-appropriate reference table lookup used by the Coinbase
adapter. -/
def yesterdayPrice (currency : Currency) (crypto : CryptoSymbol) : ℚ :=
  match currency with
  | .USD => YESTERDAY_PRICES_USD crypto
  | .EUR => YESTERDAY_PRICES_EUR crypto

/-- The quote built for one asset from its own Coinbase request: failure
degrades to the fallback quote; success synthesizes the 24h change from the
reference table. -/
def coinbaseQuote (currency : Currency) (crypto : CryptoSymbol)
    (resp : CoinbaseResponse) : CryptoPrice :=
  match resp with
  | .failure =>
      { symbol := crypto, price := 0, platform := "Coinbase", priceChange24h := 0 }
  | .success amount =>
      { symbol := crypto
        price := amount
        platform := "Coinbase"
        priceChange24h :=
          (amount - yesterdayPrice currency crypto) / yesterdayPrice currency crypto
            * 100 }

/-- Adapter `fetchCoinbasePrices`: one independent request per asset
(joined by `Promise.all`), each wrapped in its own `try/catch`. -/
def fetchCoinbasePrices (currency : Currency)
    (resp : CryptoSymbol → CoinbaseResponse) : List CryptoPrice :=
  cryptos.map (fun crypto => coinbaseQuote currency crypto (resp crypto))

/-! ## Binance adapter -/

/-- One record of Binance's array payloads: for the price endpoint `value`
is the parsed `price`, for the 24hr endpoint it is the parsed
`priceChangePercent`. -/
structure BinanceEntry where
  symbol : String
  value : ℚ
  deriving DecidableEq, Repr

/-- The Binance adapter's input: either an adapter-level failure (either
fetch or parse throwing, absorbed by the outer `catch`) or the two parsed
arrays. -/
inductive BinanceResponse where
  | failure
  | success (priceData changeData : List BinanceEntry)
  deriving DecidableEq, Repr

/-- Binance's quote-asset mapping: `currency === 'USD' ? 'USDT' : currency`. -/
def binanceQuoteAsset : Currency → String
  | .USD => "USDT"
  | .EUR => "EUR"

/-- The quote built for one asset from a successful Binance response: both
arrays are searched for the ticker symbol; a missing entry degrades that
field to 0. -/
def binanceQuote (priceData changeData : List BinanceEntry)
    (crypto : CryptoSymbol) (currency : Currency) : CryptoPrice :=
  let tickerSymbol := symStr crypto ++ binanceQuoteAsset currency
  { symbol := crypto
    price :=
      match priceData.find? (fun t => t.symbol == tickerSymbol) with
      | some e => e.value
      | none => 0
    platform := "Binance"
    priceChange24h :=
      match changeData.find? (fun t => t.symbol == tickerSymbol) with
      | some e => e.value
      | none => 0 }

/-- Adapter `fetchBinancePrices`: two global calls joined client-side by
symbol; on failure the `catch` returns the empty list. -/
def fetchBinancePrices (currency : Currency) (resp : BinanceResponse) :
    List CryptoPrice :=
  match resp with
  | .failure => []
  | .success priceData changeData =>
      cryptos.map (fun crypto => binanceQuote priceData changeData crypto currency)

/-! ## Aggregator and refresh state -/

/-- The upstream responses of one refresh round, one per source. -/
structure RoundResponses where
  kraken : KrakenResponse
  coinbase : CryptoSymbol → CoinbaseResponse
  binance : BinanceResponse

/-- The adapter dispatched for a platform name (`fetchFunctions[platform]`). -/
def fetchForPlatform (currency : Currency) (resp : RoundResponses)
    (platform : String) : List CryptoPrice :=
  if platform == "Kraken" then fetchKrakenPrices currency resp.kraken
  else if platform == "Coinbase" then fetchCoinbasePrices currency resp.coinbase
  else if platform == "Binance" then fetchBinancePrices currency resp.binance
  else []

/-- The snapshot one round publishes:
`allPrices.flat().filter(price => price.price > 0)` over
`platforms.map(...)`. -/
def roundSnapshot (currency : Currency) (resp : RoundResponses) :
    List CryptoPrice :=
  ((platforms.map (fetchForPlatform currency resp)).flatten).filter
    (fun p => 0 < p.price)

/-- The component state touched by `fetchAllPrices`: the `prices`,
`loading` and `error` `useState` cells. -/
structure TrackerState where
  prices : List CryptoPrice
  loading : Bool
  error : Option String
  deriving Repr

/-- The initial component state: `prices = []`, `loading = true`,
`error = null`. -/
def initState : TrackerState :=
  { prices := [], loading := true, error := none }

/-- The net effect on the state of one settled `fetchAllPrices` round:
`setLoading(true)`, `setError(null)`, compute, `setPrices(filtered)`, and
`finally setLoading(false)`.  No statement in the `try` block rejects (each
adapter absorbs its own failures), so the round-level `catch` never fires. -/
def fetchAllPrices (currency : Currency) (resp : RoundResponses)
    (s : TrackerState) : TrackerState :=
  { s with
      prices := roundSnapshot currency resp
      loading := false
      error := none }

/-- The state after a sequence of rounds settles, in settle order: each
settling round unconditionally runs its `setPrices`/`setLoading`/`setError`
calls (the source has no staleness guard on in-flight rounds; currency
change only clears the repeating interval). -/
def settleRounds (s : TrackerState) (rounds : List (Currency × RoundResponses)) :
    TrackerState :=
  rounds.foldl (fun st r => fetchAllPrices r.1 r.2 st) s

/-- The fallback quote produced for an asset whose data could not be
resolved: `price = 0`, `priceChange24h = 0`. -/
def fallbackQuote (crypto : CryptoSymbol) (platform : String) : CryptoPrice :=
  { symbol := crypto, price := 0, platform := platform, priceChange24h := 0 }

/-- A successful Kraken payload carrying only the BTC pair, as Kraken keys
it (`XXBTZUSD`), with last close 50000 and open 40000. -/
def sampleKrakenUSD : List (String × KrakenTicker) :=
  [("XXBTZUSD", ⟨50000, 40000⟩)]

/-- A round's responses in which only Kraken's BTC pair resolves. -/
def sampleRespUSD : RoundResponses :=
  { kraken := .success sampleKrakenUSD
    coinbase := fun _ => .failure
    binance := .failure }

/-- The single quote the `sampleRespUSD` round publishes. -/
def sampleQuoteUSD : CryptoPrice :=
  { symbol := .BTC, price := 50000, platform := "Kraken", priceChange24h := 25 }

/-- An EUR-round counterpart to `sampleRespUSD` with a different BTC close. -/
def sampleRespEUR : RoundResponses :=
  { kraken := .success [("XXBTZEUR", ⟨45000, 40000⟩)]
    coinbase := fun _ => .failure
    binance := .failure }

theorem krakenQuote_symbol (result : List (String × KrakenTicker))
    (crypto : CryptoSymbol) : (krakenQuote result crypto).symbol = crypto := by
  unfold krakenQuote
  split <;> rfl

theorem coinbaseQuote_symbol (cur : Currency) (crypto : CryptoSymbol)
    (resp : CoinbaseResponse) : (coinbaseQuote cur crypto resp).symbol = crypto := by
  unfold coinbaseQuote
  split <;> rfl

theorem sampleRespUSD_snapshot :
    roundSnapshot Currency.USD sampleRespUSD = [sampleQuoteUSD] := by
  simp [roundSnapshot, platforms, fetchForPlatform, fetchKrakenPrices,
    fetchCoinbasePrices, fetchBinancePrices, sampleRespUSD, sampleKrakenUSD, cryptos,
    krakenQuote, coinbaseQuote, strContains, listContains, listStartsWith,
    krakenCrypto, symStr, List.filter, sampleQuoteUSD]
  norm_num

theorem sampleRespEUR_snapshot :
    roundSnapshot Currency.EUR sampleRespEUR =
      [{ symbol := .BTC, price := 45000, platform := "Kraken",
         priceChange24h := 25 / 2 }] := by
  simp [roundSnapshot, platforms, fetchForPlatform, fetchKrakenPrices,
    fetchCoinbasePrices, fetchBinancePrices, sampleRespEUR, cryptos,
    krakenQuote, coinbaseQuote, strContains, listContains, listStartsWith,
    krakenCrypto, symStr, List.filter]
  norm_num

/-- Claim C1 counterexample: a Kraken round hit by an adapter-level failure
(transport error, malformed payload or source-reported error) returns the
empty list, not one fallback Quote per requested asset — its length differs
from the asset list's. -/
theorem c1_counterexample :
    (fetchKrakenPrices Currency.USD KrakenResponse.failure).length ≠
      cryptos.length := by
  decide

/-- Claim C1 (amended): each adapter is a total function (never raises);
when the adapter-level request and parse succeed, it returns exactly one
Quote per requested asset in the input list's order, and per-asset failures
(a symbol missing from a batched response, or a failed per-asset Coinbase
request) degrade to a fallback Quote with price 0 and change 0; but an
adapter-level failure makes the Kraken and Binance adapters return the
empty list instead of per-asset fallback Quotes. -/
theorem c1_adapter_shape :
    (∀ cur, fetchKrakenPrices cur .failure = [] ∧
      fetchBinancePrices cur .failure = []) ∧
    (∀ cur result,
      (fetchKrakenPrices cur (.success result)).map CryptoPrice.symbol = cryptos) ∧
    (∀ cur resp,
      (fetchCoinbasePrices cur resp).map CryptoPrice.symbol = cryptos) ∧
    (∀ cur pd cd,
      (fetchBinancePrices cur (.success pd cd)).map CryptoPrice.symbol = cryptos) ∧
    (∀ result crypto,
      result.find? (fun kv => strContains kv.1 (krakenCrypto crypto)) = none →
        krakenQuote result crypto = fallbackQuote crypto ("Kraken")) ∧
    (∀ cur crypto,
      coinbaseQuote cur crypto .failure = fallbackQuote crypto ("Coinbase")) := by
  refine ⟨fun cur => ⟨rfl, rfl⟩, fun cur result => ?_, fun cur resp => ?_,
    fun cur pd cd => rfl, fun result crypto h => ?_, fun cur crypto => rfl⟩
  · simp [fetchKrakenPrices, cryptos, krakenQuote_symbol]
  · simp [fetchCoinbasePrices, cryptos, coinbaseQuote_symbol]
  · unfold krakenQuote
    rw [h]
    rfl

/-- Witness for the amended claim C1: the fallback branch at a concrete
empty Kraken result. -/
theorem c1_adapter_shape_witness :
    krakenQuote [] CryptoSymbol.BTC = fallbackQuote CryptoSymbol.BTC ("Kraken") :=
  c1_adapter_shape.2.2.2.2.1 [] CryptoSymbol.BTC rfl

/-- Claim C2: every Quote in the published prices state set by a settled
`fetchAllPrices` round has a strictly positive price. -/
theorem c2_published_prices_positive (cur : Currency) (resp : RoundResponses)
    (s : TrackerState) (q : CryptoPrice)
    (hq : q ∈ (fetchAllPrices cur resp s).prices) : 0 < q.price := by
  have hmem : q ∈ (roundSnapshot cur resp) := hq
  unfold roundSnapshot at hmem
  simpa using (List.mem_filter.mp hmem).2

/-- Witness for claim C2 at a concrete round whose snapshot holds one
Kraken BTC quote. -/
theorem c2_published_prices_positive_witness : 0 < sampleQuoteUSD.price :=
  c2_published_prices_positive Currency.USD sampleRespUSD initState sampleQuoteUSD
    (by
      show sampleQuoteUSD ∈ roundSnapshot Currency.USD sampleRespUSD
      rw [sampleRespUSD_snapshot]
      exact List.mem_singleton.mpr rfl)

/-- Claim C5: the snapshot a round publishes is the concatenation of the
three adapters' outputs in the fixed order Kraken, Coinbase, Binance, with
every Quote of non-positive price removed. -/
theorem c5_snapshot_concat_filter (cur : Currency) (resp : RoundResponses)
    (s : TrackerState) :
    (fetchAllPrices cur resp s).prices =
      (fetchKrakenPrices cur resp.kraken ++ fetchCoinbasePrices cur resp.coinbase ++
        fetchBinancePrices cur resp.binance).filter (fun p => 0 < p.price) := by
  simp [fetchAllPrices, roundSnapshot, platforms, fetchForPlatform]

/-- Claim C9: two immediately successive rounds with the same currency and
identical upstream responses publish equal snapshots (the aggregation is a
deterministic function of its inputs). -/
theorem c9_refresh_deterministic (cur : Currency) (resp : RoundResponses)
    (s : TrackerState) :
    (fetchAllPrices cur resp s).prices =
      (fetchAllPrices cur resp (fetchAllPrices cur resp s)).prices := rfl

/-- Claim C3, evaluated at the failing execution: the currency changes from
USD to EUR while the USD round is in flight; the EUR round settles first
and the stale USD round settles last.  Because settling a round runs its
`setPrices` unconditionally (the source has no staleness guard; the
currency-change effect only clears the interval), the published prices
equal the stale USD round's snapshot, not the EUR round's. -/
theorem c3_stale_round_published :
    (settleRounds initState
        [(Currency.EUR, sampleRespEUR), (Currency.USD, sampleRespUSD)]).prices =
      roundSnapshot Currency.USD sampleRespUSD ∧
    (settleRounds initState
        [(Currency.EUR, sampleRespEUR), (Currency.USD, sampleRespUSD)]).prices ≠
      roundSnapshot Currency.EUR sampleRespEUR := by
  refine ⟨rfl, ?_⟩
  have h1 : (settleRounds initState
      [(Currency.EUR, sampleRespEUR), (Currency.USD, sampleRespUSD)]).prices =
      [sampleQuoteUSD] := by
    show roundSnapshot Currency.USD sampleRespUSD = [sampleQuoteUSD]
    exact sampleRespUSD_snapshot
  rw [h1, sampleRespEUR_snapshot]
  intro hcontra
  rw [List.cons.injEq] at hcontra
  have hprice : sampleQuoteUSD.price = (45000 : ℚ) :=
    congrArg CryptoPrice.price hcontra.1
  norm_num [sampleQuoteUSD] at hprice

/-- Claim C4: in a round in which all three sources fail entirely, the
aggregation does not raise and publishes the empty snapshot, ending with
loading cleared and no error message set. -/
theorem c4_all_sources_fail (cur : Currency) (resp : RoundResponses)
    (s : TrackerState) (hk : resp.kraken = .failure)
    (hb : resp.binance = .failure)
    (hc : ∀ crypto, resp.coinbase crypto = .failure) :
    (fetchAllPrices cur resp s).prices = [] ∧
    (fetchAllPrices cur resp s).loading = false ∧
    (fetchAllPrices cur resp s).error = none := by
  refine ⟨?_, rfl, rfl⟩
  show roundSnapshot cur resp = []
  simp [roundSnapshot, platforms, fetchForPlatform, fetchKrakenPrices,
    fetchCoinbasePrices, fetchBinancePrices, hk, hb, hc, cryptos, coinbaseQuote,
    List.filter]

/-- Witness for claim C4 at the concrete all-failing round. -/
theorem c4_all_sources_fail_witness :
    (fetchAllPrices Currency.USD
        ⟨.failure, fun _ => .failure, .failure⟩ initState).prices = [] ∧
    (fetchAllPrices Currency.USD
        ⟨.failure, fun _ => .failure, .failure⟩ initState).loading = false ∧
    (fetchAllPrices Currency.USD
        ⟨.failure, fun _ => .failure, .failure⟩ initState).error = none :=
  c4_all_sources_fail Currency.USD ⟨.failure, fun _ => .failure, .failure⟩
    initState rfl rfl (fun _ => rfl)

/-- Claim C6: the Coinbase adapter handles assets independently — if some
subset of the per-asset requests fails, the failed assets yield the
fallback Quote while every other asset's Quote is exactly what it would
have been with no failure. -/
theorem c6_coinbase_independent (cur : Currency)
    (resp resp' : CryptoSymbol → CoinbaseResponse) (failing : CryptoSymbol → Bool)
    (h : ∀ crypto, if failing crypto then resp' crypto = CoinbaseResponse.failure
      else resp' crypto = resp crypto) :
    fetchCoinbasePrices cur resp' =
      cryptos.map (fun crypto => if failing crypto then fallbackQuote crypto ("Coinbase")
        else coinbaseQuote cur crypto (resp crypto)) := by
  unfold fetchCoinbasePrices
  refine List.map_congr_left (fun crypto _ => ?_)
  have hc := h crypto
  by_cases hf : failing crypto = true
  · rw [if_pos hf] at hc
    rw [hc, if_pos hf]
    rfl
  · rw [if_neg hf] at hc
    rw [hc, if_neg hf]

/-- Witness for claim C6: only the BTC request fails. -/
theorem c6_coinbase_independent_witness :
    fetchCoinbasePrices Currency.USD
        (fun crypto => match crypto with
          | .BTC => CoinbaseResponse.failure
          | _ => CoinbaseResponse.success 100) =
      cryptos.map (fun crypto =>
        if (crypto == CryptoSymbol.BTC) then fallbackQuote crypto ("Coinbase")
        else coinbaseQuote Currency.USD crypto
          ((fun _ => CoinbaseResponse.success 100) crypto)) :=
  c6_coinbase_independent Currency.USD (fun _ => CoinbaseResponse.success 100)
    (fun crypto => match crypto with
      | .BTC => CoinbaseResponse.failure
      | _ => CoinbaseResponse.success 100)
    (fun crypto => crypto == CryptoSymbol.BTC)
    (by intro crypto; cases crypto <;> simp)

/-- Claim C7: for a source that reports no 24h change (Coinbase), the
adapter computes the change as `(current − reference) / reference × 100`
with the reference taken from the currency-appropriate table; at current
price 72000 for BTC in the base currency (reference 70000) the change is
`20 / 7 = 2.857142857…`, within `1e-9` of the decimal `2.857142857`. -/
theorem c7_coinbase_change_formula :
    (∀ (cur : Currency) (crypto : CryptoSymbol) (amount : ℚ),
      (coinbaseQuote cur crypto (.success amount)).priceChange24h =
        (amount - yesterdayPrice cur crypto) / yesterdayPrice cur crypto * 100) ∧
    (coinbaseQuote Currency.EUR CryptoSymbol.BTC (.success 72000)).priceChange24h =
      20 / 7 ∧
    |(coinbaseQuote Currency.EUR CryptoSymbol.BTC (.success 72000)).priceChange24h -
        2857142857 / 1000000000| ≤ 1 / 1000000000 := by
  refine ⟨fun cur crypto amount => rfl, ?_, ?_⟩
  · norm_num [coinbaseQuote, yesterdayPrice, YESTERDAY_PRICES_EUR]
  · have h : (coinbaseQuote Currency.EUR CryptoSymbol.BTC
        (.success 72000)).priceChange24h = 20 / 7 := by
      norm_num [coinbaseQuote, yesterdayPrice, YESTERDAY_PRICES_EUR]
    rw [h, abs_le]
    constructor <;> norm_num

/-- Claim C8: the reference-price lookup in the non-base currency (USD)
equals the base-currency (EUR) reference multiplied by the fixed rate 1.08,
for every asset and with no error path (the lookup is total); the BTC
reference 70000 converts to 75600. -/
theorem c8_reference_conversion :
    (∀ crypto, yesterdayPrice Currency.USD crypto =
      yesterdayPrice Currency.EUR crypto * EUR_TO_USD) ∧
    EUR_TO_USD = 108 / 100 ∧
    yesterdayPrice Currency.USD CryptoSymbol.BTC = 75600 := by
  refine ⟨fun crypto => rfl, rfl, ?_⟩
  norm_num [yesterdayPrice, YESTERDAY_PRICES_USD, YESTERDAY_PRICES_EUR, EUR_TO_USD]

/-- Claim C10: with currency USD the Binance adapter looks both payloads up
under the USDT-quoted ticker symbol (for example `BTCUSDT`) — so the price
and change it reports for USD are the exchange's USDT-pair values, and an
entry quoted in plain USD is ignored — while for EUR it uses the EUR pairs
directly. -/
theorem c10_binance_usdt_symbols :
    binanceQuoteAsset Currency.USD = "USDT" ∧
    binanceQuoteAsset Currency.EUR = "EUR" ∧
    (∀ (pd cd : List BinanceEntry) (crypto : CryptoSymbol),
      (binanceQuote pd cd crypto Currency.USD).price =
        (match pd.find? (fun t => t.symbol == symStr crypto ++ "USDT") with
          | some e => e.value
          | none => 0) ∧
      (binanceQuote pd cd crypto Currency.USD).priceChange24h =
        (match cd.find? (fun t => t.symbol == symStr crypto ++ "USDT") with
          | some e => e.value
          | none => 0)) ∧
    (binanceQuote [⟨"BTCUSD", 50⟩] [] CryptoSymbol.BTC Currency.USD).price = 0 ∧
    (binanceQuote [⟨"BTCUSDT", 60⟩] [] CryptoSymbol.BTC Currency.USD).price = 60 ∧
    (∀ (pd cd : List BinanceEntry) (crypto : CryptoSymbol),
      (binanceQuote pd cd crypto Currency.EUR).price =
        (match pd.find? (fun t => t.symbol == symStr crypto ++ "EUR") with
          | some e => e.value
          | none => 0)) := by
  refine ⟨rfl, rfl, fun pd cd crypto => ⟨rfl, rfl⟩, ?_, ?_,
    fun pd cd crypto => rfl⟩
  · simp [binanceQuote, binanceQuoteAsset, symStr, List.find?]
  · simp [binanceQuote, binanceQuoteAsset, symStr, List.find?]

end CryptoTracker
